import Mathlib

/-!
Verification of the Operator Lifecycle & Watch-Set Supervisor of the
contour-operator repository, a shallow embedding of
`internal/operator/operator.go`.

The embedding translates the Go source directly:
* `GatewayAPIResources` is the static resource catalog (operator.go:135-153);
* `New` is the bootstrap constructor (operator.go:80-114), with the external
  collaborators (`controller_runtime.NewManager`, `controller.New`,
  `apiutil.NewDiscoveryRESTMapper`) abstracted as a `BootstrapEnv` of
  fallible functions, and the sequence of attempted bootstrap phases
  recorded alongside the result;
* `startSelect` is the body of `Operator.Start`'s select statement
  (operator.go:118-131), mapping whichever of the two wait conditions fires
  first to the returned value, together with whether the error channel was
  consumed on that path;
* `StartStep` is a small-step model of the two execution contexts of
  `Start` (the caller and the spawned goroutine running `manager.Start`)
  communicating over the unbuffered `errChan`.
-/

namespace ContourOperator

/-- Go errors as values: either an underlying error from a collaborator
(identified by its message) or a single `fmt.Errorf("msg: %w", cause)`
wrapping layer. Equality is error identity. -/
inductive GoError where
  | base : String → GoError
  | wrapped : String → GoError → GoError
deriving DecidableEq, Repr

/-- `true` exactly when the error has at least one `fmt.Errorf` wrapping
layer around an underlying cause. -/
def GoError.isWrapped : GoError → Bool
  | .base _ => false
  | .wrapped _ _ => true

/-- `schema.GroupVersionResource` from k8s apimachinery: a
group/version/resource triple. -/
structure GroupVersionResource where
  group : String
  version : String
  resource : String
deriving DecidableEq, Repr

/-- `gatewayv1alpha1.GroupVersion` of the Gateway API v1alpha1 dependency:
group `networking.x-k8s.io`, version `v1alpha1` (the group also appears in
the operator's own RBAC annotations for gatewayclasses, gateways,
httproutes and tlsroutes). -/
structure GroupVersion where
  group : String
  version : String
deriving DecidableEq, Repr

/-- The concrete Gateway API v1alpha1 group/version constant. -/
def gatewayGroupVersion : GroupVersion :=
  { group := "networking.x-k8s.io", version := "v1alpha1" }

/-- `GatewayAPIResources` (operator.go:135-153): the static catalog of
Gateway API resource types managed by the operator. The source comment
states the list omits TCP and UDP routes since they are unsupported. -/
def GatewayAPIResources : List GroupVersionResource :=
  [{ group := gatewayGroupVersion.group
     version := gatewayGroupVersion.version
     resource := "gatewayclasses" },
   { group := gatewayGroupVersion.group
     version := gatewayGroupVersion.version
     resource := "gateways" },
   { group := gatewayGroupVersion.group
     version := gatewayGroupVersion.version
     resource := "httproutes" },
   { group := gatewayGroupVersion.group
     version := gatewayGroupVersion.version
     resource := "tlsroutes" }]

/-- The Go object types appearing in the operator's client configuration
and RBAC surface; only the first four occur in the `nonCached` list. -/
inductive ObjectType where
  | Contour
  | GatewayClass
  | Gateway
  | CustomResourceDefinition
  | Namespace
  | Secret
  | Service
  | Deployment
  | DaemonSet
  | HTTPRoute
deriving DecidableEq, Repr

/-- The `nonCached` slice built at the top of `New` (operator.go:81-82):
object types always fetched live, bypassing the manager's shared cache. -/
def nonCached : List ObjectType :=
  [.Contour, .GatewayClass, .Gateway, .CustomResourceDefinition]

/-- `config.Config`: the already-validated operator configuration passed
into `New`. -/
structure Config where
  leaderElection : Bool
  leaderElectionID : String
  metricsBindAddress : String
  contourImage : String
  envoyImage : String
deriving DecidableEq, Repr

/-- The runtime scheme returned by `GetOperatorScheme()`; opaque to the
claims, modelled as a one-value type. -/
inductive Scheme where
  | operatorScheme
deriving DecidableEq, Repr

/-- `manager.Options` as populated by `New` (operator.go:83-89). -/
structure ManagerOptions where
  scheme : Scheme
  leaderElection : Bool
  leaderElectionID : String
  metricsBindAddress : String
  clientDisableCacheFor : List ObjectType
deriving DecidableEq, Repr

/-- The `mgrOpts` value `New` builds from the operator config
(operator.go:83-89): scheme, leader-election settings, metrics address,
and the `nonCached` cache-bypass list. -/
def managerOptionsFor (opCfg : Config) : ManagerOptions :=
  { scheme := .operatorScheme
    leaderElection := opCfg.leaderElection
    leaderElectionID := opCfg.leaderElectionID
    metricsBindAddress := opCfg.metricsBindAddress
    clientDisableCacheFor := nonCached }

/-- `controller.Config`: the image references handed to the contour
controller (operator.go:97-100). -/
structure ControllerConfig where
  contourImage : String
  envoyImage : String
deriving DecidableEq, Repr

/-- The `controller.Config` literal `New` passes to `controller.New`. -/
def controllerConfigFor (opCfg : Config) : ControllerConfig :=
  { contourImage := opCfg.contourImage, envoyImage := opCfg.envoyImage }

/-- `manager.Manager`: an opaque runtime-manager handle; `clientId`
stands for the typed client returned by `mgr.GetClient()`. -/
structure Manager where
  clientId : Nat
deriving DecidableEq, Repr

/-- `meta.RESTMapper`: the discovery-backed type resolver built by
`apiutil.NewDiscoveryRESTMapper`. -/
structure RESTMapper where
  id : Nat
deriving DecidableEq, Repr

/-- The `Client` struct of operator.go:40-43, bundling the typed client
and the REST mapper. -/
structure Client where
  client : Nat
  restMapper : RESTMapper
deriving DecidableEq, Repr

/-- The package-level `operatorName` constant (operator.go:36-38). -/
def operatorName : String := "contour_operator"

/-- The `Operator` struct of operator.go:49-54. -/
structure Operator where
  client : Client
  manager : Manager
  log : String
  config : Config
deriving DecidableEq, Repr

/-- The three fallible collaborator calls made by `New`, in source order:
`controller_runtime.NewManager`, `controller.New`, and
`apiutil.NewDiscoveryRESTMapper`. An environment fixes each call's
behaviour for one execution of `New`. -/
structure BootstrapEnv where
  newManager : ManagerOptions → Except GoError Manager
  newController : Manager → ControllerConfig → Except GoError Unit
  newDiscoveryRESTMapper : Except GoError RESTMapper

/-- A bootstrap phase `New` can attempt. -/
inductive BootstrapStep where
  | createManager
  | registerController
  | discovery
deriving DecidableEq, Repr

/-- Result of one execution of `New`: the returned `(*Operator, error)`
pair as an `Except`, together with the list of bootstrap phases that were
actually attempted, in execution order. -/
structure NewResult where
  result : Except GoError Operator
  attempted : List BootstrapStep
deriving Repr

/-- `New` (operator.go:80-114): build `mgrOpts` with the `nonCached`
cache-bypass list, create the manager (error wrapped as
"failed to create manager"), register the contour controller (error
wrapped as "failed to create contour controller"), then build the
discovery REST mapper (error returned unwrapped), and finally assemble
the `Operator` value. -/
def New (env : BootstrapEnv) (opCfg : Config) : NewResult :=
  match env.newManager (managerOptionsFor opCfg) with
  | .error e =>
    { result := .error (.wrapped "failed to create manager" e)
      attempted := [.createManager] }
  | .ok mgr =>
    match env.newController mgr (controllerConfigFor opCfg) with
    | .error e =>
      { result := .error (.wrapped "failed to create contour controller" e)
        attempted := [.createManager, .registerController] }
    | .ok _ =>
      match env.newDiscoveryRESTMapper with
      | .error e =>
        { result := .error e
          attempted := [.createManager, .registerController, .discovery] }
      | .ok restMapper =>
        { result := .ok
            { manager := mgr
              client := { client := mgr.clientId, restMapper := restMapper }
              log := operatorName
              config := opCfg }
          attempted := [.createManager, .registerController, .discovery] }

/-- The two wait conditions of the select statement in `Start`
(operator.go:125-130): either `ctx.Done()` fires first, or the goroutine's
completion value (the `error` returned by `o.manager.Start(ctx)`, `none`
standing for Go's nil error) is delivered on `errChan` first. -/
inductive StartOutcome where
  | cancelledFirst
  | runtimeCompleted : Option GoError → StartOutcome
deriving DecidableEq, Repr

/-- What one execution of `Start` returns: the error value handed back to
the caller (`none` = nil) and whether the select consumed `errChan` on the
taken branch. -/
structure StartReturn where
  ret : Option GoError
  consumedErrChan : Bool
deriving DecidableEq, Repr

/-- The select statement of `Start` (operator.go:125-130): on
`ctx.Done()` return nil without reading `errChan`; on an `errChan`
delivery return the received value unchanged. -/
def startSelect : StartOutcome → StartReturn
  | .cancelledFirst => { ret := none, consumedErrChan := false }
  | .runtimeCompleted e => { ret := e, consumedErrChan := true }

/-- Program counter of the caller of `Start`: at entry (about to spawn the
goroutine), blocked in the select, or returned with a value. -/
inductive CallerPC where
  | entry
  | selecting
  | returned : Option GoError → CallerPC
deriving DecidableEq, Repr

/-- Program counter of the goroutine spawned by `Start`: not yet spawned,
running `o.manager.Start(ctx)`, blocked sending its completion value on
the unbuffered `errChan`, or finished after a completed send. -/
inductive RuntimePC where
  | notSpawned
  | running
  | sending : Option GoError → RuntimePC
  | finished
deriving DecidableEq, Repr

/-- Joint state of the two execution contexts of `Start`: the caller, the
goroutine, whether external cancellation has been signaled, and how many
values have crossed `errChan`. -/
structure StartState where
  caller : CallerPC
  runtime : RuntimePC
  ctxDone : Bool
  sends : Nat
deriving DecidableEq, Repr

/-- Initial state of `Start`: caller at entry, goroutine not spawned, no
cancellation, nothing sent. -/
def startInit : StartState :=
  { caller := .entry, runtime := .notSpawned, ctxDone := false, sends := 0 }

/-- Number of concurrently active execution contexts: the caller plus the
goroutine while the latter is live (spawned and not finished). -/
def activeContexts (s : StartState) : Nat :=
  1 + (match s.runtime with
       | .notSpawned => 0
       | .finished => 0
       | _ => 1)

/-- Small-step semantics of `Start` (operator.go:118-131): `spawn` is the
non-blocking `go func` statement, after which the caller falls directly
into the select; `cancel` is the external cancellation signal arriving at
any time; `managerExit` is `o.manager.Start(ctx)` returning value `v`,
leaving the goroutine blocked on the unbuffered `errChan <- v`;
`deliver` is the rendezvous of that send with the select's `errChan` case;
`observeCancel` is the select taking the `ctx.Done()` case, returning nil
without touching `errChan`. -/
inductive StartStep : StartState → StartState → Prop where
  | spawn (d : Bool) (k : Nat) :
      StartStep { caller := .entry, runtime := .notSpawned, ctxDone := d, sends := k }
                { caller := .selecting, runtime := .running, ctxDone := d, sends := k }
  | cancel (s : StartState) :
      StartStep s { s with ctxDone := true }
  | managerExit (c : CallerPC) (d : Bool) (k : Nat) (v : Option GoError) :
      StartStep { caller := c, runtime := .running, ctxDone := d, sends := k }
                { caller := c, runtime := .sending v, ctxDone := d, sends := k }
  | deliver (d : Bool) (k : Nat) (v : Option GoError) :
      StartStep { caller := .selecting, runtime := .sending v, ctxDone := d, sends := k }
                { caller := .returned v, runtime := .finished, ctxDone := d, sends := k + 1 }
  | observeCancel (r : RuntimePC) (k : Nat) :
      StartStep { caller := .selecting, runtime := r, ctxDone := true, sends := k }
                { caller := .returned none, runtime := r, ctxDone := true, sends := k }

/-- States reachable from `startInit` under `StartStep`. -/
def StartReachable (s : StartState) : Prop :=
  Relation.ReflTransGen StartStep startInit s

/-- Inductive invariant of the `Start` state machine: the goroutine is
spawned exactly when the caller has moved past entry; a value crosses
`errChan` only at the single rendezvous, so `sends` counts 0 before the
goroutine finishes and 1 after; while the caller sits in the select the
goroutine is live. -/
def StartInv (s : StartState) : Prop :=
  (s.caller = .entry → s.runtime = .notSpawned ∧ s.sends = 0)
  ∧ (s.runtime = .finished → s.sends = 1)
  ∧ (s.runtime ≠ .finished → s.sends = 0)
  ∧ (s.caller = .selecting →
      s.runtime = .running ∨ ∃ v, s.runtime = .sending v)

/-- A sample configuration value used to evaluate the embedding. -/
def cfgEx : Config :=
  { leaderElection := true
    leaderElectionID := "contour-operator-lock"
    metricsBindAddress := ":8080"
    contourImage := "contour-image"
    envoyImage := "envoy-image" }

/-- Environment in which every collaborator succeeds. -/
def envAllOk : BootstrapEnv :=
  { newManager := fun _ => .ok { clientId := 3 }
    newController := fun _ _ => .ok ()
    newDiscoveryRESTMapper := .ok { id := 7 } }

/-- Environment in which `controller_runtime.NewManager` fails. -/
def envMgrFail : BootstrapEnv :=
  { newManager := fun _ => .error (.base "manager boom")
    newController := fun _ _ => .ok ()
    newDiscoveryRESTMapper := .ok { id := 7 } }

/-- Environment in which `controller.New` fails. -/
def envCtrlFail : BootstrapEnv :=
  { newManager := fun _ => .ok { clientId := 3 }
    newController := fun _ _ => .error (.base "controller boom")
    newDiscoveryRESTMapper := .ok { id := 7 } }

/-- Environment in which `apiutil.NewDiscoveryRESTMapper` fails. -/
def envDiscFail : BootstrapEnv :=
  { newManager := fun _ => .ok { clientId := 3 }
    newController := fun _ _ => .ok ()
    newDiscoveryRESTMapper := .error (.base "discovery down") }

/-- The operator value `New` produces in `envAllOk` with `cfgEx`. -/
def opEx : Operator :=
  { client := { client := 3, restMapper := { id := 7 } }
    manager := { clientId := 3 }
    log := operatorName
    config := cfgEx }

/-- The invariant holds in the initial state of `Start`. -/
theorem startInv_init : StartInv startInit := by
  refine ⟨fun _ => ⟨rfl, rfl⟩, ?_, fun _ => rfl, ?_⟩
  · intro hf; exact absurd hf (by decide)
  · intro hc; exact absurd hc (by decide)

/-- Every transition of the `Start` state machine preserves the invariant. -/
theorem startInv_step {s t : StartState} (hs : StartInv s) (h : StartStep s t) :
    StartInv t := by
  obtain ⟨h1, h2, h3, h4⟩ := hs
  cases h with
  | spawn d k =>
      have hk : k = 0 := (h1 rfl).2
      subst hk
      refine ⟨?_, ?_, fun _ => rfl, fun _ => Or.inl rfl⟩
      · intro hc; simp at hc
      · intro hf; simp at hf
  | cancel s =>
      exact ⟨h1, h2, h3, h4⟩
  | managerExit c d k v =>
      refine ⟨?_, ?_, ?_, fun _ => Or.inr ⟨v, rfl⟩⟩
      · intro hc; have hr := (h1 hc).1; simp at hr
      · intro hf; simp at hf
      · intro _; exact h3 (by simp)
  | deliver d k v =>
      have hk : k = 0 := h3 (by simp)
      subst hk
      refine ⟨?_, fun _ => rfl, ?_, ?_⟩
      · intro hc; simp at hc
      · intro hf; exact absurd rfl hf
      · intro hc; simp at hc
  | observeCancel r k =>
      refine ⟨?_, h2, h3, ?_⟩
      · intro hc; simp at hc
      · intro hc; simp at hc

/-- Every reachable state of the `Start` state machine satisfies the
invariant. -/
theorem startReachable_inv {s : StartState} (h : StartReachable s) : StartInv s := by
  induction h with
  | refl => exact startInv_init
  | tail _ hstep ih => exact startInv_step ih hstep

/-- Claim C1: `GatewayAPIResources` is a fixed catalog — it equals the
explicit ordered four-element list gatewayclasses, gateways, httproutes,
tlsroutes (all in the Gateway API v1alpha1 group/version), and the
excluded kinds udproutes and tcproutes never appear among its resources. -/
theorem gatewayAPIResources_exact_catalog :
    GatewayAPIResources =
      [{ group := "networking.x-k8s.io", version := "v1alpha1", resource := "gatewayclasses" },
       { group := "networking.x-k8s.io", version := "v1alpha1", resource := "gateways" },
       { group := "networking.x-k8s.io", version := "v1alpha1", resource := "httproutes" },
       { group := "networking.x-k8s.io", version := "v1alpha1", resource := "tlsroutes" }]
    ∧ List.map (fun r => r.resource) GatewayAPIResources =
        ["gatewayclasses", "gateways", "httproutes", "tlsroutes"]
    ∧ List.contains (List.map (fun r => r.resource) GatewayAPIResources) "udproutes" = false
    ∧ List.contains (List.map (fun r => r.resource) GatewayAPIResources) "tcproutes" = false :=
  ⟨rfl, rfl, rfl, rfl⟩

/-- Claim C9: every descriptor in `GatewayAPIResources` carries the same
group and the same version, namely the Gateway API v1alpha1
group/version; the four entries differ only in their resource field. -/
theorem gatewayAPIResources_uniform_group_version :
    List.all GatewayAPIResources
      (fun r => r.group == gatewayGroupVersion.group
                && r.version == gatewayGroupVersion.version) = true
    ∧ List.map (fun r => r.resource) GatewayAPIResources =
        ["gatewayclasses", "gateways", "httproutes", "tlsroutes"] :=
  ⟨rfl, rfl⟩

/-- Claim C2: if the runtime's event loop completes with an error before
external cancellation is signaled, `Start` returns exactly that error
value, unwrapped and with no added context, and it does so by consuming
the completion channel. -/
theorem start_runtime_error_identity (e : GoError) :
    startSelect (.runtimeCompleted (some e)) =
      { ret := some e, consumedErrChan := true } := rfl

/-- Claim C3: if external cancellation is signaled before the runtime
produces a completion value, `Start` returns success (nil error) and does
not consume the completion channel on that path (fire-and-forget). -/
theorem start_cancellation_returns_nil :
    startSelect .cancelledFirst = { ret := none, consumedErrChan := false } := rfl

/-- Claim C8: if the runtime's event loop completes with a nil value
before cancellation, `Start` returns nil — indistinguishable at the
`Start` interface from an externally-requested stop. -/
theorem start_clean_runtime_exit_is_success :
    (startSelect (.runtimeCompleted none)).ret = none
    ∧ (startSelect (.runtimeCompleted none)).ret = (startSelect .cancelledFirst).ret :=
  ⟨rfl, rfl⟩

/-- Claim C4: a manager-construction failure in `New` is returned wrapped
exactly once with "failed to create manager", and a controller
registration failure wrapped exactly once with
"failed to create contour controller"; in both cases `New` returns the
error immediately and produces no operator instance (the `Except` is an
`error`, never an `ok` alongside it). -/
theorem new_bootstrap_error_wrapping (env : BootstrapEnv) (cfg : Config) (e : GoError) :
    (env.newManager (managerOptionsFor cfg) = .error e →
       (New env cfg).result = .error (.wrapped "failed to create manager" e))
    ∧ (∀ mgr, env.newManager (managerOptionsFor cfg) = .ok mgr →
        env.newController mgr (controllerConfigFor cfg) = .error e →
        (New env cfg).result = .error (.wrapped "failed to create contour controller" e)) := by
  constructor
  · intro h; simp [New, h]
  · intro mgr h1 h2; simp [New, h1, h2]

/-- Witness for C4: the two wrapping branches evaluated on concrete
failing environments. -/
theorem new_bootstrap_error_wrapping_witness :
    (New envMgrFail cfgEx).result =
      .error (.wrapped "failed to create manager" (.base "manager boom"))
    ∧ (New envCtrlFail cfgEx).result =
      .error (.wrapped "failed to create contour controller" (.base "controller boom")) :=
  ⟨(new_bootstrap_error_wrapping envMgrFail cfgEx (.base "manager boom")).1 rfl,
   (new_bootstrap_error_wrapping envCtrlFail cfgEx (.base "controller boom")).2
     { clientId := 3 } rfl rfl⟩

/-- Counterexample to C5 as stated: with the manager and controller
succeeding and discovery failing with the bare error "discovery down",
`New` returns that error itself, carrying no wrapping layer at all — in
particular it is not wrapped with "failed to create manager/discovery". -/
theorem new_discovery_error_unwrapped_counterexample :
    (New envDiscFail cfgEx).result = .error (.base "discovery down")
    ∧ GoError.isWrapped (.base "discovery down") = false :=
  ⟨rfl, rfl⟩

/-- Claim C5 as amended: a discovery (REST-mapper construction) failure is
fatal to startup — `New` returns an error and no operator instance — and
the error is propagated to the caller verbatim, with no wrapping context
added. -/
theorem new_discovery_error_propagated_verbatim (env : BootstrapEnv) (cfg : Config)
    (e : GoError) (mgr : Manager)
    (h1 : env.newManager (managerOptionsFor cfg) = .ok mgr)
    (h2 : env.newController mgr (controllerConfigFor cfg) = .ok ())
    (h3 : env.newDiscoveryRESTMapper = .error e) :
    (New env cfg).result = .error e := by
  simp [New, h1, h2, h3]

/-- Witness for the amended C5 at a concrete environment. -/
theorem new_discovery_error_propagated_verbatim_witness :
    (New envDiscFail cfgEx).result = .error (.base "discovery down") :=
  new_discovery_error_propagated_verbatim envDiscFail cfgEx (.base "discovery down")
    { clientId := 3 } rfl rfl rfl

/-- Counterexample to C6 as stated: in the concrete run where discovery
fails, controller registration has nevertheless been attempted (it
precedes discovery in `New`), and the returned error is the bare
discovery error, not a wrapped error. -/
theorem new_discovery_failure_registration_attempted_counterexample :
    List.contains (New envDiscFail cfgEx).attempted .registerController = true
    ∧ GoError.isWrapped (.base "discovery down") = false
    ∧ (New envDiscFail cfgEx).result = .error (.base "discovery down") :=
  ⟨rfl, rfl, rfl⟩

/-- Claim C6 as amended: in every execution of `New` in which discovery
(REST-mapper construction) fails, controller registration has already
been attempted — the attempted phases are exactly manager creation, then
controller registration, then discovery, in that order — and the error
returned to the caller is the discovery failure itself, unwrapped. -/
theorem new_discovery_failure_after_registration (env : BootstrapEnv) (cfg : Config)
    (e : GoError) (mgr : Manager)
    (h1 : env.newManager (managerOptionsFor cfg) = .ok mgr)
    (h2 : env.newController mgr (controllerConfigFor cfg) = .ok ())
    (h3 : env.newDiscoveryRESTMapper = .error e) :
    (New env cfg).attempted = [.createManager, .registerController, .discovery]
    ∧ (New env cfg).result = .error e := by
  simp [New, h1, h2, h3]

/-- Witness for the amended C6 at a concrete environment. -/
theorem new_discovery_failure_after_registration_witness :
    (New envDiscFail cfgEx).attempted = [.createManager, .registerController, .discovery]
    ∧ (New envDiscFail cfgEx).result = .error (.base "discovery down") :=
  new_discovery_failure_after_registration envDiscFail cfgEx (.base "discovery down")
    { clientId := 3 } rfl rfl rfl

/-- Claim C7: `Start` launches the runtime's event loop on an independent
execution path without blocking its caller (the spawn step is a single
unconditional transition that leaves the caller at the select); in every
reachable state at most one completion value has crossed the channel; and
while the caller is blocked in the select, exactly two execution contexts
are active. -/
theorem start_two_contexts_single_delivery :
    StartStep startInit
      { caller := .selecting, runtime := .running, ctxDone := false, sends := 0 }
    ∧ (∀ s, StartReachable s → s.sends ≤ 1)
    ∧ (∀ s, StartReachable s → s.caller = .selecting → activeContexts s = 2) := by
  refine ⟨StartStep.spawn false 0, ?_, ?_⟩
  · intro s hs
    obtain ⟨-, h2, h3, -⟩ := startReachable_inv hs
    by_cases hf : s.runtime = .finished
    · rw [h2 hf]
    · rw [h3 hf]
      exact Nat.zero_le 1
  · intro s hs hc
    obtain ⟨-, -, -, h4⟩ := startReachable_inv hs
    rcases h4 hc with h | ⟨v, h⟩ <;> simp [activeContexts, h]

/-- Witness for C7: the bound on deliveries at the initial state, and the
two active contexts in the state reached by the spawn step. -/
theorem start_two_contexts_single_delivery_witness :
    startInit.sends ≤ 1
    ∧ activeContexts
        { caller := .selecting, runtime := .running, ctxDone := false, sends := 0 } = 2 :=
  ⟨start_two_contexts_single_delivery.2.1 startInit Relation.ReflTransGen.refl,
   start_two_contexts_single_delivery.2.2 _
     (Relation.ReflTransGen.single (StartStep.spawn false 0)) rfl⟩

/-- Claim C10: for every successful call to `New`, the set of object types
configured to bypass the shared cache (`ClientDisableCacheFor` in the
manager options `New` passes to the runtime manager) is exactly Contour,
GatewayClass, Gateway, and CustomResourceDefinition. -/
theorem new_nonCached_exact (env : BootstrapEnv) (cfg : Config) (op : Operator)
    (_h : (New env cfg).result = .ok op) :
    (managerOptionsFor cfg).clientDisableCacheFor =
      [.Contour, .GatewayClass, .Gateway, .CustomResourceDefinition] := rfl

/-- Witness for C10: a fully successful bootstrap run. -/
theorem new_nonCached_exact_witness :
    (New envAllOk cfgEx).result = .ok opEx
    ∧ (managerOptionsFor cfgEx).clientDisableCacheFor =
        [.Contour, .GatewayClass, .Gateway, .CustomResourceDefinition] :=
  ⟨rfl, new_nonCached_exact envAllOk cfgEx opEx rfl⟩

end ContourOperator
